import Mathlib

/-!
Verification of the row-level data-scope predicate builder
(`module_admin/aspect/data_scope.py`, class `GetDataScope`).

The builder walks the roles of the current user and, per role, emits one SQL
condition fragment chosen from a fixed set of f-string templates; an
administrator flag or an ALL-scope role short-circuits the walk with the
always-true fragment; the fragment list is deduplicated in first-occurrence
order (dict.fromkeys) and joined into an `or_(...)` expression string.

The fragments are embedded as the inductive `Clause`, one constructor per
template, together with `renderClause`, which reproduces the exact template
text of the source.  The semantics of a fragment (which rows of a queried
entity it admits), which the repository delegates to the query engine, is
modelled from the spec as the executable `evalClause` / `evalOr`.
-/

/-- Modelled from the spec: the role record (the user VO module defining it is
not part of the sources here); a role carries an identifier and a data-scope
discriminator string. -/
structure SysRole where
  role_id : Nat
  data_scope : String
deriving DecidableEq

/-- Modelled from the spec: the user payload of the current-user object that
`GetDataScope.__call__` reads; an identifier, a home department, the
administrator flag, and the held roles. -/
structure UserInfoModel where
  user_id : Nat
  dept_id : Nat
  admin : Bool
  role : List SysRole
deriving DecidableEq

/-- Modelled from the spec: the wrapper object handed to the dependency,
whose `user` field carries the user payload. -/
structure CurrentUserModel where
  user : UserInfoModel
deriving DecidableEq

/-- Alias parameters of the `GetDataScope` dependency class, with the default
values of its `__init__`. -/
structure GetDataScope where
  query_alias : String := ""
  db_alias : String := "db"
  user_alias : String := "user_id"
  dept_alias : String := "dept_id"
deriving DecidableEq

def GetDataScope.DATA_SCOPE_ALL : String := "1"

def GetDataScope.DATA_SCOPE_CUSTOM : String := "2"

def GetDataScope.DATA_SCOPE_DEPT : String := "3"

def GetDataScope.DATA_SCOPE_DEPT_AND_CHILD : String := "4"

def GetDataScope.DATA_SCOPE_SELF : String := "5"

/-- One constructor per SQL-fragment template of `GetDataScope.__call__`:
the always-true fragment, the always-false fragment, the multi-role CUSTOM
`in_` fragment, the single-role CUSTOM fragment, the own-department equality
fragment, the department-and-children fragment and the owner equality
fragment. -/
inductive Clause where
  | alwaysTrue : Clause
  | alwaysFalse : Clause
  | customIn : List Nat → Clause
  | customEq : Nat → Clause
  | deptEq : Nat → Clause
  | deptAndChild : Nat → Clause
  | selfEq : Nat → Clause
deriving DecidableEq

/-- The role ids of the roles held with CUSTOM data scope
(`custom_data_scope_role_id_list` of the source). -/
def custom_data_scope_role_id_list (u : UserInfoModel) : List Nat :=
  (u.role.filter fun item => item.data_scope == GetDataScope.DATA_SCOPE_CUSTOM).map
    fun item => item.role_id

/-- The fragment one role contributes in the non-short-circuit branches of the
loop body of `GetDataScope.__call__`. -/
def roleClause (u : UserInfoModel) (customIds : List Nat) (role : SysRole) : Clause :=
  if role.data_scope == GetDataScope.DATA_SCOPE_CUSTOM then
    (if customIds.length > 1 then Clause.customIn customIds
     else Clause.customEq role.role_id)
  else if role.data_scope == GetDataScope.DATA_SCOPE_DEPT then
    Clause.deptEq u.dept_id
  else if role.data_scope == GetDataScope.DATA_SCOPE_DEPT_AND_CHILD then
    Clause.deptAndChild u.dept_id
  else if role.data_scope == GetDataScope.DATA_SCOPE_SELF then
    Clause.selfEq u.user_id
  else
    Clause.alwaysFalse

/-- The role loop of `GetDataScope.__call__`: accumulates one fragment per
role, and on an administrator user or an ALL-scope role replaces the
accumulator with the single always-true fragment and stops (the `break`). -/
def scopeLoop (u : UserInfoModel) (customIds : List Nat) :
    List SysRole → List Clause → List Clause
  | [], acc => acc
  | role :: rest, acc =>
    if u.admin || role.data_scope == GetDataScope.DATA_SCOPE_ALL then
      [Clause.alwaysTrue]
    else
      scopeLoop u customIds rest (acc ++ [roleClause u customIds role])

/-- Helper for first-occurrence deduplication, carrying the set of elements
already emitted. -/
def pyDedupAux {α : Type} [DecidableEq α] : List α → List α → List α
  | [], _ => []
  | a :: l, seen =>
    if a ∈ seen then pyDedupAux l seen else a :: pyDedupAux l (a :: seen)

/-- Deduplication in first-occurrence order, the behaviour of
`list(dict.fromkeys(...))` in the source. -/
def pyDedup {α : Type} [DecidableEq α] (l : List α) : List α :=
  pyDedupAux l []

/-- The fragment list before deduplication (the `param_sql_list` of the
source just after the loop). -/
def param_clause_list (u : UserInfoModel) : List Clause :=
  scopeLoop u (custom_data_scope_role_id_list u) u.role []

/-- The fragment list after deduplication (the `param_sql_list` of the source
after `list(dict.fromkeys(...))`). -/
def param_sql_list (u : UserInfoModel) : List Clause :=
  pyDedup (param_clause_list u)

/-- Text of a Python list of numbers, as an f-string interpolates it. -/
def pyListRepr (l : List Nat) : String :=
  "[" ++ String.intercalate ", " (l.map toString) ++ "]"

/-- The exact f-string template text of each fragment of the source. -/
def renderClause (g : GetDataScope) : Clause → String
  | Clause.alwaysTrue => "1 == 1"
  | Clause.alwaysFalse => "1 == 0"
  | Clause.customIn ids =>
      g.query_alias ++ "." ++ g.dept_alias ++
        ".in_(select(SysRoleDept.dept_id).where(SysRoleDept.role_id.in_(" ++
        pyListRepr ids ++ "))) if hasattr(" ++ g.query_alias ++ ", \x27" ++
        g.dept_alias ++ "\x27) else 1 == 0"
  | Clause.customEq rid =>
      g.query_alias ++ "." ++ g.dept_alias ++
        ".in_(select(SysRoleDept.dept_id).where(SysRoleDept.role_id == " ++
        toString rid ++ ")) if hasattr(" ++ g.query_alias ++ ", \x27" ++
        g.dept_alias ++ "\x27) else 1 == 0"
  | Clause.deptEq d =>
      g.query_alias ++ "." ++ g.dept_alias ++ " == " ++ toString d ++
        " if hasattr(" ++ g.query_alias ++ ", \x27" ++ g.dept_alias ++
        "\x27) else 1 == 0"
  | Clause.deptAndChild d =>
      g.query_alias ++ "." ++ g.dept_alias ++
        ".in_(select(SysDept.dept_id).where(or_(SysDept.dept_id == " ++
        toString d ++ ", func.find_in_set(" ++ toString d ++
        ", SysDept.ancestors)))) if hasattr(" ++ g.query_alias ++ ", \x27" ++
        g.dept_alias ++ "\x27) else 1 == 0"
  | Clause.selfEq uid =>
      g.query_alias ++ "." ++ g.user_alias ++ " == " ++ toString uid ++
        " if hasattr(" ++ g.query_alias ++ ", \x27" ++ g.user_alias ++
        "\x27) else 1 == 0"

/-- The full return value of `GetDataScope.__call__`: the fragments joined
with ", " inside `or_(...)`. -/
def GetDataScope.call (g : GetDataScope) (current_user : CurrentUserModel) : String :=
  "or_(" ++
    String.intercalate ", " ((param_sql_list current_user.user).map (renderClause g)) ++
    ")"

/-- Modelled from the spec: a department row with its ancestors chain, read
as the list of ancestor ids (`find_in_set` membership). -/
structure SysDept where
  dept_id : Nat
  ancestors : List Nat
deriving DecidableEq

/-- Modelled from the spec: the database tables the CUSTOM and
DEPT_AND_CHILD sub-queries read — the role-to-department grant rows
(role id, department id) and the department rows. -/
structure DbEnv where
  sys_role_dept : List (Nat × Nat)
  sys_dept : List SysDept
deriving DecidableEq

/-- Modelled from the spec: which of the probed fields the queried entity
possesses (the `hasattr` tests of the templates). -/
structure EntityShape where
  hasDeptField : Bool
  hasUserField : Bool
deriving DecidableEq

/-- Modelled from the spec: a row of the queried entity, with the values of
its department field and owner-user field. -/
structure EntityRow where
  dept_id : Nat
  user_id : Nat
deriving DecidableEq

/-- Modelled from the spec: the rows a single fragment admits when the query
engine evaluates it; a fragment probing a field the entity lacks is false. -/
def evalClause (env : DbEnv) (shape : EntityShape) (row : EntityRow) : Clause → Bool
  | Clause.alwaysTrue => true
  | Clause.alwaysFalse => false
  | Clause.customIn ids =>
      if shape.hasDeptField then
        env.sys_role_dept.any fun p => decide (p.1 ∈ ids) && p.2 == row.dept_id
      else false
  | Clause.customEq rid =>
      if shape.hasDeptField then
        env.sys_role_dept.any fun p => p.1 == rid && p.2 == row.dept_id
      else false
  | Clause.deptEq d =>
      if shape.hasDeptField then row.dept_id == d else false
  | Clause.deptAndChild d =>
      if shape.hasDeptField then
        env.sys_dept.any fun sd =>
          (sd.dept_id == d || decide (d ∈ sd.ancestors)) && sd.dept_id == row.dept_id
      else false
  | Clause.selfEq uid =>
      if shape.hasUserField then row.user_id == uid else false

/-- Modelled from the spec: the disjunction of the fragments; with zero
operands, `or_` admits no row. -/
def evalOr (env : DbEnv) (shape : EntityShape) (row : EntityRow)
    (clauses : List Clause) : Bool :=
  clauses.any (evalClause env shape row)

/-- An administrator user holding zero roles, on which the short-circuit of
the role loop never runs. -/
def adminNoRoles : UserInfoModel :=
  { user_id := 1, dept_id := 100, admin := true, role := [] }

/-- An administrator holding one SELF-scope role. -/
def adminOneRole : UserInfoModel :=
  { user_id := 1, dept_id := 100, admin := true, role := [{ role_id := 2, data_scope := "5" }] }

/-- A non-admin user holding a SELF role, an ALL role and a DEPT role. -/
def userWithAllRole : UserInfoModel :=
  { user_id := 7, dept_id := 5, admin := false,
    role := [{ role_id := 11, data_scope := "5" }, { role_id := 12, data_scope := "1" },
             { role_id := 13, data_scope := "3" }] }

/-- A non-admin user holding zero roles. -/
def noRolesUser : UserInfoModel :=
  { user_id := 5, dept_id := 100, admin := false, role := [] }

/-- A role carrying a data-scope value outside the recognized range. -/
def strangeRole : SysRole := { role_id := 9, data_scope := "9" }

/-- A non-admin user holding only the unrecognized-scope role. -/
def strangeUser : UserInfoModel :=
  { user_id := 1, dept_id := 2, admin := false, role := [strangeRole] }

/-- A non-admin user holding one DEPT role and one SELF role. -/
def deptSelfUser : UserInfoModel :=
  { user_id := 7, dept_id := 5, admin := false,
    role := [{ role_id := 11, data_scope := "3" }, { role_id := 12, data_scope := "5" }] }

/-- An environment with empty grant and department tables. -/
def emptyEnv : DbEnv := { sys_role_dept := [], sys_dept := [] }

/-- An entity shape with both probed fields present. -/
def fullShape : EntityShape := { hasDeptField := true, hasUserField := true }

/-- A DEPT_AND_CHILD role for the witness. -/
def dacRole : SysRole := { role_id := 30, data_scope := "4" }

/-- A non-admin user in department 5 holding the DEPT_AND_CHILD role. -/
def dacUser : UserInfoModel :=
  { user_id := 2, dept_id := 5, admin := false, role := [dacRole] }

def dept5 : SysDept := { dept_id := 5, ancestors := [1] }

def dept12 : SysDept := { dept_id := 12, ancestors := [1, 5] }

def dept99 : SysDept := { dept_id := 99, ancestors := [1, 7] }

/-- A department table where department 12 descends from 5 and 99 does not. -/
def deptTreeEnv : DbEnv := { sys_role_dept := [], sys_dept := [dept5, dept12, dept99] }

/-- Whether a fragment is one of the two CUSTOM (role-grant IN) templates. -/
def isCustomClause : Clause → Bool
  | Clause.customIn _ => true
  | Clause.customEq _ => true
  | _ => false

/-- A non-admin user holding two CUSTOM-scope roles. -/
def twoCustomUser : UserInfoModel :=
  { user_id := 9, dept_id := 50, admin := false,
    role := [{ role_id := 10, data_scope := "2" }, { role_id := 20, data_scope := "2" }] }

/-- Grant rows: role 10 grants department 3 and role 20 grants department 7. -/
def twoCustomEnv : DbEnv := { sys_role_dept := [(10, 3), (20, 7)], sys_dept := [] }

theorem mem_pyDedupAux {α : Type} [DecidableEq α] (l : List α) :
    ∀ (seen : List α) (x : α), x ∈ pyDedupAux l seen ↔ x ∈ l ∧ x ∉ seen := by
  induction l with
  | nil => intro seen x; simp [pyDedupAux]
  | cons a l ih =>
    intro seen x
    by_cases ha : a ∈ seen
    · rw [pyDedupAux, if_pos ha, ih]
      constructor
      · exact fun ⟨h1, h2⟩ => ⟨List.mem_cons_of_mem a h1, h2⟩
      · rintro ⟨h1, h2⟩
        rcases List.mem_cons.mp h1 with rfl | h1
        · exact absurd ha h2
        · exact ⟨h1, h2⟩
    · rw [pyDedupAux, if_neg ha]
      simp only [List.mem_cons, ih]
      constructor
      · rintro (rfl | ⟨h1, h2⟩)
        · exact ⟨Or.inl rfl, ha⟩
        · exact ⟨Or.inr h1, fun hx => h2 (Or.inr hx)⟩
      · rintro ⟨h1, h2⟩
        by_cases hxa : x = a
        · exact Or.inl hxa
        · rcases h1 with rfl | h1
          · exact Or.inl rfl
          · exact Or.inr ⟨h1, fun hx => hx.elim hxa h2⟩

theorem nodup_pyDedupAux {α : Type} [DecidableEq α] (l : List α) :
    ∀ (seen : List α), (pyDedupAux l seen).Nodup := by
  induction l with
  | nil => intro seen; simp [pyDedupAux]
  | cons a l ih =>
    intro seen
    by_cases ha : a ∈ seen
    · rw [pyDedupAux, if_pos ha]; exact ih seen
    · rw [pyDedupAux, if_neg ha]
      refine List.nodup_cons.mpr ⟨fun hmem => ?_, ih _⟩
      exact ((mem_pyDedupAux l _ a).mp hmem).2 (List.mem_cons_self a _)

theorem mem_pyDedup {α : Type} [DecidableEq α] (l : List α) (x : α) :
    x ∈ pyDedup l ↔ x ∈ l := by
  rw [pyDedup, mem_pyDedupAux]
  simp

theorem any_pyDedup {α : Type} [DecidableEq α] (l : List α) (f : α → Bool) :
    (pyDedup l).any f = l.any f := by
  cases hd : (pyDedup l).any f <;> cases hl : l.any f
  · rfl
  · rcases List.any_eq_true.mp hl with ⟨x, hx, hfx⟩
    have ht : (pyDedup l).any f = true :=
      List.any_eq_true.mpr ⟨x, (mem_pyDedup l x).mpr hx, hfx⟩
    rw [hd] at ht; exact ht
  · rcases List.any_eq_true.mp hd with ⟨x, hx, hfx⟩
    have ht : l.any f = true :=
      List.any_eq_true.mpr ⟨x, (mem_pyDedup l x).mp hx, hfx⟩
    rw [hl] at ht; exact ht.symm
  · rfl

theorem length_pyDedupAux {α : Type} [DecidableEq α] (l : List α) :
    ∀ (seen : List α), (pyDedupAux l seen).length ≤ l.length := by
  induction l with
  | nil => intro seen; simp [pyDedupAux]
  | cons a l ih =>
    intro seen
    by_cases ha : a ∈ seen
    · rw [pyDedupAux, if_pos ha]
      exact Nat.le_succ_of_le (ih seen)
    · rw [pyDedupAux, if_neg ha]
      simpa using Nat.succ_le_succ (ih (a :: seen))

theorem filter_pyDedupAux {α : Type} [DecidableEq α] (p : α → Bool) (l : List α) :
    ∀ (seen : List α),
      (pyDedupAux l seen).filter p = pyDedupAux (l.filter p) (seen.filter p) := by
  induction l with
  | nil => intro seen; simp [pyDedupAux]
  | cons a l ih =>
    intro seen
    by_cases hp : p a
    · by_cases ha : a ∈ seen
      · have ha2 : a ∈ seen.filter p := List.mem_filter.mpr ⟨ha, hp⟩
        rw [pyDedupAux, if_pos ha, ih seen, List.filter_cons_of_pos hp, pyDedupAux, if_pos ha2]
      · have ha2 : a ∉ seen.filter p := fun hx => ha (List.mem_filter.mp hx).1
        rw [pyDedupAux, if_neg ha, List.filter_cons_of_pos hp, ih (a :: seen),
          List.filter_cons_of_pos hp, List.filter_cons_of_pos hp, pyDedupAux, if_neg ha2]
    · by_cases ha : a ∈ seen
      · rw [pyDedupAux, if_pos ha, ih seen, List.filter_cons_of_neg hp]
      · rw [pyDedupAux, if_neg ha, List.filter_cons_of_neg hp, ih (a :: seen),
          List.filter_cons_of_neg hp, List.filter_cons_of_neg hp]

theorem pyDedupAux_replicate_of_mem {α : Type} [DecidableEq α] (k : Nat) (x : α) :
    ∀ (seen : List α), x ∈ seen → pyDedupAux (List.replicate k x) seen = [] := by
  induction k with
  | zero => intro seen _; rfl
  | succ k ih =>
    intro seen hx
    rw [List.replicate_succ, pyDedupAux, if_pos hx]
    exact ih seen hx

theorem pyDedup_replicate {α : Type} [DecidableEq α] (k : Nat) (x : α) (hk : 0 < k) :
    pyDedup (List.replicate k x) = [x] := by
  cases k with
  | zero => exact absurd hk (by simp)
  | succ k =>
    rw [pyDedup, List.replicate_succ, pyDedupAux, if_neg (List.not_mem_nil x),
      pyDedupAux_replicate_of_mem k x [x] (List.mem_singleton.mpr rfl)]

theorem scopeLoop_no_short_circuit (u : UserInfoModel) (cis : List Nat)
    (h1 : u.admin = false) :
    ∀ (l : List SysRole) (acc : List Clause),
      (∀ r ∈ l, ¬r.data_scope = GetDataScope.DATA_SCOPE_ALL) →
      scopeLoop u cis l acc = acc ++ l.map (roleClause u cis) := by
  intro l
  induction l with
  | nil => intro acc _; simp [scopeLoop]
  | cons role rest ih =>
    intro acc hall
    have hr : (role.data_scope == GetDataScope.DATA_SCOPE_ALL) = false := by
      simp only [beq_eq_false_iff_ne, ne_eq]
      exact hall role (List.mem_cons_self _ _)
    simp only [scopeLoop, h1, hr, Bool.or_self, Bool.false_eq_true, if_false]
    rw [ih (acc ++ [roleClause u cis role]) fun r hr2 => hall r (List.mem_cons_of_mem _ hr2)]
    simp

theorem scopeLoop_admin (u : UserInfoModel) (cis : List Nat) (h : u.admin = true) :
    ∀ (l : List SysRole) (acc : List Clause),
      l ≠ [] → scopeLoop u cis l acc = [Clause.alwaysTrue] := by
  intro l
  cases l with
  | nil => intro acc hne; exact absurd rfl hne
  | cons role rest =>
    intro acc _
    simp [scopeLoop, h]

theorem scopeLoop_all (u : UserInfoModel) (cis : List Nat) :
    ∀ (l : List SysRole) (acc : List Clause),
      (∃ r ∈ l, r.data_scope = GetDataScope.DATA_SCOPE_ALL) →
      scopeLoop u cis l acc = [Clause.alwaysTrue] := by
  intro l
  induction l with
  | nil =>
    rintro acc ⟨r, hr, -⟩
    exact absurd hr (List.not_mem_nil r)
  | cons role rest ih =>
    rintro acc ⟨r, hmem, hscope⟩
    by_cases hc : (u.admin || role.data_scope == GetDataScope.DATA_SCOPE_ALL) = true
    · simp [scopeLoop, hc]
    · rcases List.mem_cons.mp hmem with rfl | hmem2
      · exact absurd (by simp [hscope]) hc
      · simp only [scopeLoop]
        rw [if_neg hc]
        exact ih _ ⟨r, hmem2, hscope⟩

theorem pyDedup_singleton_alwaysTrue : pyDedup [Clause.alwaysTrue] = [Clause.alwaysTrue] := by
  decide

/-- C1 counterexample: an administrator holding zero roles does not receive
the universal-true predicate — the loop never runs, the call returns the
empty `or_()`, and the modelled predicate admits no row. -/
theorem admin_no_roles_not_universal :
    adminNoRoles.admin = true ∧
    GetDataScope.call {} { user := adminNoRoles } = "or_()" ∧
    param_sql_list adminNoRoles = [] ∧
    evalOr { sys_role_dept := [], sys_dept := [] }
      { hasDeptField := true, hasUserField := true }
      { dept_id := 100, user_id := 1 } (param_sql_list adminNoRoles) = false := by
  refine ⟨rfl, by decide, rfl, rfl⟩

/-- C1 (amended): for every administrator holding at least one role, the
builder returns the single universal-true fragment, regardless of which
scopes the held roles carry, and the predicate admits every row. -/
theorem admin_universal_true (u : UserInfoModel)
    (h1 : u.admin = true) (h2 : u.role ≠ []) :
    param_sql_list u = [Clause.alwaysTrue] ∧
    ∀ (env : DbEnv) (shape : EntityShape) (row : EntityRow),
      evalOr env shape row (param_sql_list u) = true := by
  have hp : param_sql_list u = [Clause.alwaysTrue] := by
    rw [param_sql_list, param_clause_list,
      scopeLoop_admin u (custom_data_scope_role_id_list u) h1 u.role [] h2,
      pyDedup_singleton_alwaysTrue]
  exact ⟨hp, fun env shape row => by rw [hp]; rfl⟩

theorem admin_universal_true_witness :
    param_sql_list adminOneRole = [Clause.alwaysTrue] :=
  (admin_universal_true adminOneRole rfl (by decide)).1

/-- C2: a user holding at least one ALL-scope role receives the single
universal-true fragment — any fragments accumulated from other roles are
discarded, not supplemented — and the predicate admits every row. -/
theorem all_scope_short_circuit (u : UserInfoModel) (r : SysRole)
    (h1 : r ∈ u.role) (h2 : r.data_scope = GetDataScope.DATA_SCOPE_ALL) :
    param_sql_list u = [Clause.alwaysTrue] ∧
    ∀ (env : DbEnv) (shape : EntityShape) (row : EntityRow),
      evalOr env shape row (param_sql_list u) = true := by
  have hp : param_sql_list u = [Clause.alwaysTrue] := by
    rw [param_sql_list, param_clause_list,
      scopeLoop_all u (custom_data_scope_role_id_list u) u.role [] ⟨r, h1, h2⟩,
      pyDedup_singleton_alwaysTrue]
  exact ⟨hp, fun env shape row => by rw [hp]; rfl⟩

theorem all_scope_short_circuit_witness :
    param_sql_list userWithAllRole = [Clause.alwaysTrue] :=
  (all_scope_short_circuit userWithAllRole { role_id := 12, data_scope := "1" }
    (by decide) rfl).1

/-- C5 counterexample: for a non-admin user with zero roles the call emits
the bare zero-operand `or_()` — the empty fragment list is not special-cased,
the output relies on what the query engine makes of an OR of nothing. -/
theorem empty_or_not_special_cased :
    noRolesUser.admin = false ∧
    param_sql_list noRolesUser = [] ∧
    GetDataScope.call {} { user := noRolesUser } = "or_()" := by
  refine ⟨rfl, rfl, by decide⟩

/-- C5 (amended): for every non-admin user holding zero roles the call
returns the zero-operand `or_()` (no explicit empty-case special-casing in
the builder), and under the empty-OR-is-false reading of the spec the
predicate admits zero rows. -/
theorem no_roles_no_rows (u : UserInfoModel) (g : GetDataScope)
    (_h1 : u.admin = false) (h2 : u.role = []) :
    GetDataScope.call g { user := u } = "or_()" ∧
    ∀ (env : DbEnv) (shape : EntityShape) (row : EntityRow),
      evalOr env shape row (param_sql_list u) = false := by
  have hp : param_sql_list u = [] := by
    rw [param_sql_list, param_clause_list, h2]
    rfl
  constructor
  · rw [GetDataScope.call]
    dsimp only
    rw [hp]
    rfl
  · intro env shape row
    rw [hp]
    rfl

theorem no_roles_no_rows_witness :
    GetDataScope.call {} { user := noRolesUser } = "or_()" ∧
    evalOr { sys_role_dept := [], sys_dept := [] }
      { hasDeptField := true, hasUserField := true }
      { dept_id := 1, user_id := 1 } (param_sql_list noRolesUser) = false := by
  have h := no_roles_no_rows noRolesUser {} rfl rfl
  exact ⟨h.1, h.2 _ _ _⟩

/-- C6: a role whose data_scope is none of the five recognized values
contributes the unconditionally false fragment (the builder is total, no
exception path exists), and that fragment admits no row. -/
theorem unrecognized_scope_fail_closed (u : UserInfoModel) (cis : List Nat) (r : SysRole)
    (h : r.data_scope ∉
      [GetDataScope.DATA_SCOPE_ALL, GetDataScope.DATA_SCOPE_CUSTOM,
       GetDataScope.DATA_SCOPE_DEPT, GetDataScope.DATA_SCOPE_DEPT_AND_CHILD,
       GetDataScope.DATA_SCOPE_SELF]) :
    roleClause u cis r = Clause.alwaysFalse ∧
    ∀ (env : DbEnv) (shape : EntityShape) (row : EntityRow),
      evalClause env shape row (roleClause u cis r) = false := by
  simp only [List.mem_cons, List.not_mem_nil, or_false, not_or] at h
  obtain ⟨-, h2, h3, h4, h5⟩ := h
  have hc : roleClause u cis r = Clause.alwaysFalse := by
    simp [roleClause, beq_iff_eq, h2, h3, h4, h5]
  exact ⟨hc, fun env shape row => by rw [hc]; rfl⟩

theorem unrecognized_scope_fail_closed_witness :
    roleClause strangeUser (custom_data_scope_role_id_list strangeUser) strangeRole =
      Clause.alwaysFalse :=
  (unrecognized_scope_fail_closed strangeUser
    (custom_data_scope_role_id_list strangeUser) strangeRole (by decide)).1

/-- C7: a fragment probing a field the queried entity does not possess
evaluates to false — never to an error — for each field-dependent template:
the CUSTOM, DEPT and DEPT_AND_CHILD fragments without a department field,
and the SELF fragment without an owner-user field. -/
theorem missing_field_fail_closed (env : DbEnv) (row : EntityRow) (hu hd : Bool)
    (ids : List Nat) (rid d d2 uid : Nat) :
    evalClause env { hasDeptField := false, hasUserField := hu } row
      (Clause.customIn ids) = false ∧
    evalClause env { hasDeptField := false, hasUserField := hu } row
      (Clause.customEq rid) = false ∧
    evalClause env { hasDeptField := false, hasUserField := hu } row
      (Clause.deptEq d) = false ∧
    evalClause env { hasDeptField := false, hasUserField := hu } row
      (Clause.deptAndChild d2) = false ∧
    evalClause env { hasDeptField := hd, hasUserField := false } row
      (Clause.selfEq uid) = false := by
  refine ⟨rfl, rfl, rfl, ?_, ?_⟩ <;> simp [evalClause]

theorem any_map_comp {α β : Type} (l : List α) (f : α → β) (p : β → Bool) :
    (l.map f).any p = l.any fun a => p (f a) := by
  induction l with
  | nil => rfl
  | cons a l ih => simp [List.map_cons, List.any_cons, ih]

/-- C3: for a non-admin user with no ALL-scope role, the built predicate is
the disjunction of the per-role fragments — a row is admitted exactly when
the fragment of at least one held role admits it. -/
theorem or_of_role_clauses (u : UserInfoModel)
    (h1 : u.admin = false)
    (h2 : ∀ r ∈ u.role, ¬r.data_scope = GetDataScope.DATA_SCOPE_ALL)
    (env : DbEnv) (shape : EntityShape) (row : EntityRow) :
    evalOr env shape row (param_sql_list u) =
      u.role.any fun r =>
        evalClause env shape row (roleClause u (custom_data_scope_role_id_list u) r) := by
  rw [param_sql_list, evalOr, any_pyDedup, param_clause_list,
    scopeLoop_no_short_circuit u (custom_data_scope_role_id_list u) h1 u.role [] h2,
    List.nil_append, any_map_comp]

theorem or_of_role_clauses_witness :
    (evalOr emptyEnv fullShape { dept_id := 5, user_id := 8 } (param_sql_list deptSelfUser) =
      deptSelfUser.role.any fun r =>
        evalClause emptyEnv fullShape { dept_id := 5, user_id := 8 }
          (roleClause deptSelfUser (custom_data_scope_role_id_list deptSelfUser) r)) ∧
    evalOr emptyEnv fullShape { dept_id := 5, user_id := 8 } (param_sql_list deptSelfUser) = true ∧
    evalOr emptyEnv fullShape { dept_id := 6, user_id := 7 } (param_sql_list deptSelfUser) = true ∧
    evalOr emptyEnv fullShape { dept_id := 6, user_id := 8 } (param_sql_list deptSelfUser) = false :=
  ⟨or_of_role_clauses deptSelfUser rfl (by decide) emptyEnv fullShape
    { dept_id := 5, user_id := 8 }, by decide, by decide, by decide⟩

/-- C9: the retained fragment list never holds two identical fragments, and
deduplication does not change the predicate — the deduplicated disjunction
admits exactly the rows the raw disjunction admits. -/
theorem dedup_sound (u : UserInfoModel) :
    (param_sql_list u).Nodup ∧
    ∀ (env : DbEnv) (shape : EntityShape) (row : EntityRow),
      evalOr env shape row (param_sql_list u) =
        evalOr env shape row (param_clause_list u) := by
  constructor
  · rw [param_sql_list, pyDedup]
    exact nodup_pyDedupAux (param_clause_list u) []
  · intro env shape row
    rw [param_sql_list, evalOr, evalOr, any_pyDedup]

/-- C8: a DEPT_AND_CHILD role contributes the department-and-children
fragment for the department of the user, and (when the department of the
user exists in the department table) that fragment admits exactly the rows
whose department equals the department of the user or belongs to a
department whose ancestors chain contains the department of the user. -/
theorem dept_and_child_semantics (u : UserInfoModel) (cis : List Nat) (r : SysRole)
    (h : r.data_scope = GetDataScope.DATA_SCOPE_DEPT_AND_CHILD) :
    roleClause u cis r = Clause.deptAndChild u.dept_id ∧
    ∀ (env : DbEnv) (shape : EntityShape) (row : EntityRow),
      shape.hasDeptField = true →
      (∃ sd ∈ env.sys_dept, sd.dept_id = u.dept_id) →
      (evalClause env shape row (Clause.deptAndChild u.dept_id) = true ↔
        (row.dept_id = u.dept_id ∨
         ∃ sd ∈ env.sys_dept, sd.dept_id = row.dept_id ∧ u.dept_id ∈ sd.ancestors)) := by
  have hc : roleClause u cis r = Clause.deptAndChild u.dept_id := by
    rw [roleClause, h]
    rw [if_neg (by decide), if_neg (by decide), if_pos (by decide)]
  refine ⟨hc, fun env shape row hshape hex => ?_⟩
  rcases hex with ⟨sd0, hmem0, hid0⟩
  simp only [evalClause, hshape, if_true]
  rw [List.any_eq_true]
  constructor
  · rintro ⟨sd, hmem, hsd⟩
    rw [Bool.and_eq_true, Bool.or_eq_true] at hsd
    obtain ⟨hor, heq⟩ := hsd
    have heq2 : sd.dept_id = row.dept_id := by simpa using heq
    rcases hor with hdd | hanc
    · have hdd2 : sd.dept_id = u.dept_id := by simpa using hdd
      exact Or.inl (heq2.symm.trans hdd2)
    · exact Or.inr ⟨sd, hmem, heq2, by simpa using hanc⟩
  · rintro (hrow | ⟨sd, hmem, hid, hanc⟩)
    · exact ⟨sd0, hmem0, by simp [hid0, hrow]⟩
    · exact ⟨sd, hmem, by simp [hid, hanc]⟩

theorem dept_and_child_semantics_witness :
    evalClause deptTreeEnv fullShape { dept_id := 12, user_id := 3 }
      (Clause.deptAndChild dacUser.dept_id) = true ∧
    evalClause deptTreeEnv fullShape { dept_id := 99, user_id := 3 }
      (Clause.deptAndChild dacUser.dept_id) = false := by
  have h := dept_and_child_semantics dacUser [] dacRole rfl
  refine ⟨?_, by decide⟩
  exact (h.2 deptTreeEnv fullShape { dept_id := 12, user_id := 3 } rfl
    ⟨dept5, by decide, rfl⟩).mpr (Or.inr ⟨dept12, by decide, rfl, by decide⟩)

theorem filter_custom_map (u : UserInfoModel) (cis : List Nat) (hlen : 1 < cis.length) :
    ∀ (l : List SysRole),
      (l.map (roleClause u cis)).filter isCustomClause =
        List.replicate
          (l.countP fun r => r.data_scope == GetDataScope.DATA_SCOPE_CUSTOM)
          (Clause.customIn cis) := by
  intro l
  induction l with
  | nil => rfl
  | cons r rest ih =>
    by_cases hr : r.data_scope == GetDataScope.DATA_SCOPE_CUSTOM
    · have hc : roleClause u cis r = Clause.customIn cis := by
        rw [roleClause, if_pos hr, if_pos hlen]
      simp [List.map_cons, List.filter_cons, hc, isCustomClause, List.countP_cons, hr, ih,
        List.replicate_succ]
    · have hnc : isCustomClause (roleClause u cis r) = false := by
        rw [roleClause, if_neg hr]
        by_cases h3 : r.data_scope == GetDataScope.DATA_SCOPE_DEPT
        · rw [if_pos h3]; rfl
        · rw [if_neg h3]
          by_cases h4 : r.data_scope == GetDataScope.DATA_SCOPE_DEPT_AND_CHILD
          · rw [if_pos h4]; rfl
          · rw [if_neg h4]
            by_cases h5 : r.data_scope == GetDataScope.DATA_SCOPE_SELF
            · rw [if_pos h5]; rfl
            · rw [if_neg h5]; rfl
      simp [List.map_cons, List.filter_cons, hnc, List.countP_cons, hr, ih]

/-- C4: a non-admin user (no ALL-scope role) holding more than one
CUSTOM-scope role gets exactly one CUSTOM fragment in the deduplicated list —
the IN fragment over the role ids of all CUSTOM roles — and that fragment
admits exactly the rows whose department lies in the union of the department
sets granted to those roles. -/
theorem custom_union_single_clause (u : UserInfoModel)
    (h1 : u.admin = false)
    (h2 : ∀ r ∈ u.role, ¬r.data_scope = GetDataScope.DATA_SCOPE_ALL)
    (h3 : 1 < (custom_data_scope_role_id_list u).length) :
    (param_sql_list u).filter isCustomClause =
      [Clause.customIn (custom_data_scope_role_id_list u)] ∧
    ∀ (env : DbEnv) (shape : EntityShape) (row : EntityRow),
      shape.hasDeptField = true →
      (evalClause env shape row (Clause.customIn (custom_data_scope_role_id_list u)) = true ↔
        ∃ p ∈ env.sys_role_dept,
          p.1 ∈ custom_data_scope_role_id_list u ∧ p.2 = row.dept_id) := by
  constructor
  · rw [param_sql_list, param_clause_list,
      scopeLoop_no_short_circuit u (custom_data_scope_role_id_list u) h1 u.role [] h2,
      List.nil_append, pyDedup, filter_pyDedupAux, List.filter_nil,
      filter_custom_map u (custom_data_scope_role_id_list u) h3 u.role]
    have hk : 0 < u.role.countP fun r => r.data_scope == GetDataScope.DATA_SCOPE_CUSTOM := by
      have hlen : (custom_data_scope_role_id_list u).length =
          u.role.countP fun r => r.data_scope == GetDataScope.DATA_SCOPE_CUSTOM := by
        rw [custom_data_scope_role_id_list, List.length_map, List.countP_eq_length_filter]
      omega
    rw [show pyDedupAux
        (List.replicate (u.role.countP fun r => r.data_scope == GetDataScope.DATA_SCOPE_CUSTOM)
          (Clause.customIn (custom_data_scope_role_id_list u))) [] =
        pyDedup
          (List.replicate (u.role.countP fun r => r.data_scope == GetDataScope.DATA_SCOPE_CUSTOM)
            (Clause.customIn (custom_data_scope_role_id_list u))) from rfl,
      pyDedup_replicate _ _ hk]
  · intro env shape row hshape
    simp only [evalClause, hshape, if_true]
    rw [List.any_eq_true]
    constructor
    · rintro ⟨p, hmem, hp⟩
      rw [Bool.and_eq_true] at hp
      exact ⟨p, hmem, by simpa using hp.1, by simpa using hp.2⟩
    · rintro ⟨p, hmem, hin, heq⟩
      exact ⟨p, hmem, by simp [hin, heq]⟩

theorem custom_union_single_clause_witness :
    ((param_sql_list twoCustomUser).filter isCustomClause =
      [Clause.customIn (custom_data_scope_role_id_list twoCustomUser)]) ∧
    evalClause twoCustomEnv fullShape { dept_id := 7, user_id := 1 }
      (Clause.customIn (custom_data_scope_role_id_list twoCustomUser)) = true := by
  have h := custom_union_single_clause twoCustomUser rfl (by decide) (by decide)
  refine ⟨h.1, ?_⟩
  exact (h.2 twoCustomEnv fullShape { dept_id := 7, user_id := 1 } rfl).mpr
    ⟨(20, 7), by decide, by decide, rfl⟩

/-- C10: the returned string is exactly `or_(...)` around the ", "-joined
rendered fragments; every retained fragment is one of the fixed templates;
when fragments remain their number never exceeds the number of held roles;
an admin-with-roles or ALL-role short-circuit retains exactly the single
always-true fragment; a user with no roles retains zero fragments. -/
theorem call_output_shape (g : GetDataScope) (u : UserInfoModel) :
    GetDataScope.call g { user := u } =
      "or_(" ++ String.intercalate ", " ((param_sql_list u).map (renderClause g)) ++ ")" ∧
    (∀ c ∈ param_sql_list u,
      c = Clause.alwaysTrue ∨ c = Clause.alwaysFalse ∨
      (∃ ids, c = Clause.customIn ids) ∨ (∃ i, c = Clause.customEq i) ∨
      (∃ i, c = Clause.deptEq i) ∨ (∃ i, c = Clause.deptAndChild i) ∨
      (∃ i, c = Clause.selfEq i)) ∧
    (0 < (param_sql_list u).length → (param_sql_list u).length ≤ u.role.length) ∧
    (((u.admin = true ∧ u.role ≠ []) ∨
        ∃ r ∈ u.role, r.data_scope = GetDataScope.DATA_SCOPE_ALL) →
      param_sql_list u = [Clause.alwaysTrue]) ∧
    (u.role = [] → param_sql_list u = []) := by
  refine ⟨rfl, ?_, ?_, ?_, ?_⟩
  · intro c _
    rcases c with _ | _ | ids | i | i | i | i
    · exact Or.inl rfl
    · exact Or.inr (Or.inl rfl)
    · exact Or.inr (Or.inr (Or.inl ⟨ids, rfl⟩))
    · exact Or.inr (Or.inr (Or.inr (Or.inl ⟨i, rfl⟩)))
    · exact Or.inr (Or.inr (Or.inr (Or.inr (Or.inl ⟨i, rfl⟩))))
    · exact Or.inr (Or.inr (Or.inr (Or.inr (Or.inr (Or.inl ⟨i, rfl⟩)))))
    · exact Or.inr (Or.inr (Or.inr (Or.inr (Or.inr (Or.inr ⟨i, rfl⟩)))))
  · intro hpos
    by_cases hadm : u.admin = true
    · cases hrole : u.role with
      | nil =>
        rw [param_sql_list, param_clause_list, hrole] at hpos
        simp [scopeLoop, pyDedup, pyDedupAux] at hpos
      | cons a rest =>
        have hone : param_sql_list u = [Clause.alwaysTrue] := by
          rw [param_sql_list, param_clause_list,
            scopeLoop_admin u (custom_data_scope_role_id_list u) hadm u.role []
              (by rw [hrole]; simp),
            pyDedup_singleton_alwaysTrue]
        rw [hone]
        simp
    · have hadm2 : u.admin = false := by
        cases hval : u.admin
        · rfl
        · exact absurd hval hadm
      by_cases hall : ∃ r ∈ u.role, r.data_scope = GetDataScope.DATA_SCOPE_ALL
      · have hone : param_sql_list u = [Clause.alwaysTrue] := by
          rw [param_sql_list, param_clause_list,
            scopeLoop_all u (custom_data_scope_role_id_list u) u.role [] hall,
            pyDedup_singleton_alwaysTrue]
        rw [hone]
        rcases hall with ⟨r, hr, -⟩
        cases hrole : u.role with
        | nil => rw [hrole] at hr; exact absurd hr (List.not_mem_nil r)
        | cons a rest => simp
      · push_neg at hall
        rw [param_sql_list, param_clause_list,
          scopeLoop_no_short_circuit u (custom_data_scope_role_id_list u) hadm2 u.role [] hall,
          List.nil_append, pyDedup]
        refine le_trans (length_pyDedupAux _ []) ?_
        rw [List.length_map]
  · rintro (⟨ha, hne⟩ | hex)
    · rw [param_sql_list, param_clause_list,
        scopeLoop_admin u (custom_data_scope_role_id_list u) ha u.role [] hne,
        pyDedup_singleton_alwaysTrue]
    · rw [param_sql_list, param_clause_list,
        scopeLoop_all u (custom_data_scope_role_id_list u) u.role [] hex,
        pyDedup_singleton_alwaysTrue]
  · intro h
    rw [param_sql_list, param_clause_list, h]
    rfl
